import Mathlib

/-!
Verification development for the BeamNG → MSAgent-AI bridge
(`beamng-bridge/bridge.py`).

The bridge is an HTTP dispatcher that formats game events into line-oriented
`CHAT:` commands and forwards them over a named pipe to the assistant
process.  We embed the translation layer shallowly: JSON payload values
become an inductive type, the pipe world (connect / write / read outcomes)
becomes an explicit record, and `send_to_msagent` becomes a pure function
from a command and a pipe world to a trace recording the frames written,
the reads requested, whether the handle was opened and closed, and the
string result returned to the caller.
-/

namespace Bridge

/-- Values of a decoded JSON document, as Python represents them after
`request.json`: `None`, `bool`, numbers (we carry the exact rational value
of the decimal literal), strings, lists and objects. -/
inductive JValue where
  | jnull
  | jbool (b : Bool)
  | jnum (q : ℚ)
  | jstr (s : String)
  | jarr (xs : List JValue)
  | jobj (fields : List (String × JValue))

/-- A decoded JSON object body, in document order, as handed to a route
handler by the HTTP framework. -/
abbrev Payload := List (String × JValue)

/-- Python `dict.get(k, d)`: the value bound to `k`, or the default `d`
when the key is absent. -/
def pget (data : Payload) (k : String) (d : JValue) : JValue :=
  match data.lookup k with
  | some v => v
  | none => d

/-- Round the nonnegative fraction `a / b` (with `b > 0`) to the nearest
natural number, ties going to the even one.  This is the rounding applied
by Python `format(x, ".Nf")`. -/
def roundHalfEvenNat (a b : Nat) : Nat :=
  let f := a / b
  let r := a % b
  if 2 * r < b then f
  else if b < 2 * r then f + 1
  else if f % 2 = 0 then f else f + 1

/-- Decimal digit string of a natural number, left-padded with zeros to at
least `w` digits. -/
def padZeros (n : Nat) (w : Nat) : String :=
  let s := toString n
  String.mk (List.replicate (w - s.length) '0') ++ s

/-- Python fixed-point formatting `f"{q:.pf}"` of the exact value `q` with
`p` digits after the decimal point (Python applies this to the binary
float holding `q`; on the exactly representable decimals appearing in the
payloads of this bridge the two agree). -/
def fmtFixed (p : Nat) (q : ℚ) : String :=
  let n : Nat := roundHalfEvenNat (q.num.natAbs * 10 ^ p) q.den
  let sign := if q.num < 0 then "-" else ""
  if p = 0 then sign ++ toString n
  else
    let ds := (padZeros n (p + 1)).data
    sign ++ String.mk (ds.take (ds.length - p)) ++ "."
      ++ String.mk (ds.drop (ds.length - p))

/-- Python `str()` of a decoded JSON number: integers print without a
decimal point, non-integral values print their (finite) decimal
expansion. -/
def pyNumStr (q : ℚ) : String :=
  if q.den = 1 then toString q.num
  else
    match (List.range 64).find? (fun k => 10 ^ k % q.den = 0) with
    | some k => fmtFixed k q
    | none => toString q.num ++ "/" ++ toString q.den

/-- Escape one character of a Python string literal rendered with the
given quote character. -/
def pyEscapeChar (quote : Char) (c : Char) : String :=
  if c = '\\' then "\\\\"
  else if c = quote then "\\" ++ String.mk [quote]
  else if c = '\n' then "\\n"
  else if c = '\r' then "\\r"
  else if c = '\t' then "\\t"
  else String.mk [c]

/-- Python `repr()` of a string: single-quoted unless the string contains
a single quote and no double quote. -/
def pyQuote (s : String) : String :=
  let q := if s.data.contains '\x27' && !(s.data.contains '"') then '"' else '\x27'
  String.mk [q] ++ String.join (s.data.map (pyEscapeChar q)) ++ String.mk [q]

mutual

/-- Python `repr()` of a decoded JSON value. -/
def pyRepr : JValue → String
  | .jnull => "None"
  | .jbool true => "True"
  | .jbool false => "False"
  | .jnum q => pyNumStr q
  | .jstr s => pyQuote s
  | .jarr xs => "[" ++ pyReprItems xs ++ "]"
  | .jobj fs => "\x7b" ++ pyReprFields fs ++ "\x7d"

/-- Comma-separated `repr()`s of list items. -/
def pyReprItems : List JValue → String
  | [] => ""
  | [v] => pyRepr v
  | v :: vs => pyRepr v ++ ", " ++ pyReprItems vs

/-- Comma-separated `repr()`s of dict entries. -/
def pyReprFields : List (String × JValue) → String
  | [] => ""
  | [(k, v)] => pyQuote k ++ ": " ++ pyRepr v
  | (k, v) :: fs => pyQuote k ++ ": " ++ pyRepr v ++ ", " ++ pyReprFields fs

end

/-- Python `str()` of a decoded JSON value, the conversion applied by an
f-string interpolation `{x}` without a format spec. -/
def pyStr : JValue → String
  | .jnull => "None"
  | .jbool true => "True"
  | .jbool false => "False"
  | .jnum q => pyNumStr q
  | .jstr s => s
  | .jarr xs => pyRepr (.jarr xs)
  | .jobj fs => pyRepr (.jobj fs)

/-- Whether a JSON value is accepted by Python`s numeric fixed-point
format spec (ints, floats and bools are; everything else raises). -/
def isNumericJ : JValue → Bool
  | .jnum _ => true
  | .jbool _ => true
  | _ => false

/-- An f-string interpolation `{x:.pf}`: fixed-point formatting of the
field value, raising (returning `.error`) on non-numeric values exactly
as Python does. -/
def pyFormatFixed (p : Nat) (v : JValue) : Except String String :=
  match v with
  | .jnum q => .ok (fmtFixed p q)
  | .jbool b => .ok (fmtFixed p (if b then 1 else 0))
  | .jstr _ => .error "Unknown format code f for object of type str"
  | .jnull => .error "unsupported format string passed to NoneType.__format__"
  | .jarr _ => .error "unsupported format string passed to list.__format__"
  | .jobj _ => .error "unsupported format string passed to dict.__format__"

/-- UTF-8 encoding of one scalar value (`str.encode("utf-8")`, per
character). -/
def utf8EncodeChar (c : Char) : List Nat :=
  let n := c.toNat
  if n < 0x80 then [n]
  else if n < 0x800 then [0xC0 + n / 64, 0x80 + n % 64]
  else if n < 0x10000 then
    [0xE0 + n / 4096, 0x80 + n / 64 % 64, 0x80 + n % 64]
  else
    [0xF0 + n / 262144, 0x80 + n / 4096 % 64, 0x80 + n / 64 % 64, 0x80 + n % 64]

/-- UTF-8 encoding of a string as a byte list, as produced by Python
`s.encode("utf-8")`. -/
def utf8Encode (s : String) : List Nat :=
  (s.data.map utf8EncodeChar).flatten

/-- Whether a byte is a UTF-8 continuation byte. -/
def contByte (b : Nat) : Bool :=
  0x80 ≤ b && b < 0xC0

/-- Strict UTF-8 decoding of a byte list (`bytes.decode("utf-8")`):
`none` models the `UnicodeDecodeError` Python raises on malformed or
truncated input, including overlong encodings and surrogates. -/
def utf8DecodeChars : List Nat → Option (List Char)
  | [] => some []
  | b :: bs =>
    if b < 0x80 then
      match utf8DecodeChars bs with
      | some cs => some (Char.ofNat b :: cs)
      | none => none
    else if b < 0xC2 then none
    else if b < 0xE0 then
      match bs with
      | b1 :: bs1 =>
        if contByte b1 then
          match utf8DecodeChars bs1 with
          | some cs => some (Char.ofNat ((b - 0xC0) * 64 + (b1 - 0x80)) :: cs)
          | none => none
        else none
      | [] => none
    else if b < 0xF0 then
      match bs with
      | b1 :: b2 :: bs2 =>
        if contByte b1 && contByte b2 && !(b = 0xE0 && b1 < 0xA0)
            && !(b = 0xED && 0xA0 ≤ b1) then
          match utf8DecodeChars bs2 with
          | some cs =>
            some (Char.ofNat ((b - 0xE0) * 4096 + (b1 - 0x80) * 64 + (b2 - 0x80)) :: cs)
          | none => none
        else none
      | _ => none
    else if b < 0xF5 then
      match bs with
      | b1 :: b2 :: b3 :: bs3 =>
        if contByte b1 && contByte b2 && contByte b3 && !(b = 0xF0 && b1 < 0x90)
            && !(b = 0xF4 && 0x90 ≤ b1) then
          match utf8DecodeChars bs3 with
          | some cs =>
            some (Char.ofNat ((b - 0xF0) * 262144 + (b1 - 0x80) * 4096
              + (b2 - 0x80) * 64 + (b3 - 0x80)) :: cs)
          | none => none
        else none
      | _ => none
    else none

/-- Whether a character is stripped by Python `str.strip()` (the ASCII
whitespace characters; the further Unicode space code points never occur
in this protocol). -/
def pyIsSpace (c : Char) : Bool :=
  c = ' ' || c = '\t' || c = '\n' || c = '\r' || c = '\x0b' || c = '\x0c'

/-- Python `str.strip()`: remove leading and trailing whitespace. -/
def pyStrip (s : String) : String :=
  String.mk ((s.data.dropWhile pyIsSpace).rdropWhile pyIsSpace)

/-- Name of the named pipe both processes rendezvous on. -/
def PIPE_NAME : String := "\\\\.\\pipe\\MSAgentAI"

/-- Connect timeout constant from the source (milliseconds).  The source
defines it but never passes it to any pipe API. -/
def PIPE_TIMEOUT : Nat := 5000

/-- The sentinel returned when a `pywintypes.error` is caught. -/
def couldNotConnectMsg : String :=
  "ERROR:Could not connect to MSAgent-AI. Is it running?"

/-- Abstraction of `str(UnicodeDecodeError)`; only the fact that the
handler returns `"ERROR:" ++` this message matters to the bridge. -/
def decodeErrMsg : String :=
  "invalid utf-8 in pipe response"

/-- One call`s view of the pipe: the outcome the OS gives to `CreateFile`
and `WriteFile` (`.error` models a raised `pywintypes.error`), and the
bytes the peer has pending for `ReadFile` (or a read-side error). -/
structure PipeWorld where
  connect : Except String Unit
  write : Except String Unit
  read : Except String (List Nat)

/-- Observable trace of one `send_to_msagent` call: whether the handle
was opened, the frames actually written, the byte caps of the reads
issued, the bytes each read returned, whether `CloseHandle` was executed,
and the string returned to the caller. -/
structure SendTrace where
  opened : Bool
  framesWritten : List (List Nat)
  readsRequested : List Nat
  bytesRead : List (List Nat)
  closed : Bool
  result : String
deriving DecidableEq

/-- Shallow embedding of `send_to_msagent(command)`: connect to the pipe,
write `command + "\n"` UTF-8 encoded, issue a single `ReadFile` capped at
1024 bytes, decode and strip the reply, close the handle; a
`pywintypes.error` anywhere yields the could-not-connect sentinel and a
decode failure yields `"ERROR:" ++ message`, in both cases skipping the
`CloseHandle` call. -/
def send_to_msagent (command : String) (w : PipeWorld) : SendTrace :=
  match w.connect with
  | .error _ => ⟨false, [], [], [], false, couldNotConnectMsg⟩
  | .ok _ =>
    let frame := utf8Encode (command ++ "\n")
    match w.write with
    | .error _ => ⟨true, [], [], [], false, couldNotConnectMsg⟩
    | .ok _ =>
      match w.read with
      | .error _ => ⟨true, [frame], [1024], [], false, couldNotConnectMsg⟩
      | .ok pending =>
        let data := pending.take 1024
        match utf8DecodeChars data with
        | none => ⟨true, [frame], [1024], [data], false, "ERROR:" ++ decodeErrMsg⟩
        | some cs => ⟨true, [frame], [1024], [data], true, pyStrip (String.mk cs)⟩

/-- Whether `a` occurs at the head of `b` (character-list version of
Python substring matching, helper for `pyContains`). -/
def charListStartsWith : List Char → List Char → Bool
  | [], _ => true
  | _ :: _, [] => false
  | a :: as, b :: bs => a = b && charListStartsWith as bs

/-- Whether `a` occurs contiguously anywhere inside `b`. -/
def charListHasSub (a : List Char) : List Char → Bool
  | [] => charListStartsWith a []
  | b :: bs => charListStartsWith a (b :: bs) || charListHasSub a bs

/-- Python `needle in hay` on strings. -/
def pyContains (hay needle : String) : Bool :=
  charListHasSub needle.data hay.data

/-- Outcome of one HTTP route invocation: the IPC round trip it performed
(if the handler reached the `send_to_msagent` call) and the HTTP result,
where `.error` models an uncaught handler exception (Flask turns it into
a 500) and `.ok` carries the status code and the JSON body. -/
structure RouteOutcome where
  ipc : Option SendTrace
  http : Except String (Nat × List (String × JValue))

/-- The uniform acknowledgement body `jsonify({'status': 'ok'})`. -/
def okBody : List (String × JValue) := [("status", JValue.jstr "ok")]

/-- Embedding of the `/health` handler: probe with `PING`, report
connectivity as `"PONG" in response`, and always answer 200. -/
def health (w : PipeWorld) : RouteOutcome :=
  let tr := send_to_msagent "PING" w
  let is_connected := pyContains tr.result "PONG"
  ⟨some tr, .ok (200, [("status", JValue.jstr "ok"),
    ("msagent_connected", JValue.jbool is_connected),
    ("msagent_response", JValue.jstr tr.result)])⟩

/-- Embedding of the `/vehicle` handler. -/
def comment_on_vehicle (data : Payload) (w : PipeWorld) : RouteOutcome :=
  let vehicle_name := pget data "vehicle_name" (.jstr "Unknown")
  let vehicle_model := pget data "vehicle_model" (.jstr "")
  let prompt := "I just spawned a " ++ pyStr vehicle_name ++ " " ++ pyStr vehicle_model
    ++ " in BeamNG! Make an excited comment about this vehicle."
  ⟨some (send_to_msagent ("CHAT:" ++ prompt) w), .ok (200, okBody)⟩

/-- Embedding of the `/crash` handler; the f-string format specs
`:.0f` and `:.1f` can raise, in which case no command is sent and the
request fails. -/
def comment_on_crash (data : Payload) (w : PipeWorld) : RouteOutcome :=
  let vehicle_name := pget data "vehicle_name" (.jstr "Unknown")
  let speed_before := pget data "speed_before" (.jnum 0)
  let damage_level := pget data "damage_level" (.jnum 0)
  match pyFormatFixed 0 speed_before with
  | .error e => ⟨none, .error e⟩
  | .ok sSpeed =>
    match pyFormatFixed 1 damage_level with
    | .error e => ⟨none, .error e⟩
    | .ok sDamage =>
      let prompt := "I just crashed my " ++ pyStr vehicle_name ++ " at " ++ sSpeed
        ++ " km/h! The damage is pretty bad (" ++ sDamage ++ "). React dramatically!"
      ⟨some (send_to_msagent ("CHAT:" ++ prompt) w), .ok (200, okBody)⟩

/-- Embedding of the `/dent` handler; `damage_amount` is read but never
used in the prompt. -/
def comment_on_dent (data : Payload) (w : PipeWorld) : RouteOutcome :=
  let vehicle_name := pget data "vehicle_name" (.jstr "Unknown")
  let _damage_amount := pget data "damage_amount" (.jnum 0)
  let prompt := "My " ++ pyStr vehicle_name
    ++ " just got a big dent! Make a comment about the damage."
  ⟨some (send_to_msagent ("CHAT:" ++ prompt) w), .ok (200, okBody)⟩

/-- Embedding of the `/scratch` handler. -/
def comment_on_scratch (data : Payload) (w : PipeWorld) : RouteOutcome :=
  let vehicle_name := pget data "vehicle_name" (.jstr "Unknown")
  let prompt := "Just scratched the paint on my " ++ pyStr vehicle_name
    ++ ". Make a light comment."
  ⟨some (send_to_msagent ("CHAT:" ++ prompt) w), .ok (200, okBody)⟩

/-- Embedding of the `/surroundings` handler; the `:.0f` spec on `speed`
can raise. -/
def comment_on_surroundings (data : Payload) (w : PipeWorld) : RouteOutcome :=
  let vehicle_name := pget data "vehicle_name" (.jstr "Unknown")
  let location := pget data "location" (.jstr "Unknown")
  let speed := pget data "speed" (.jnum 0)
  match pyFormatFixed 0 speed with
  | .error e => ⟨none, .error e⟩
  | .ok sSpeed =>
    let prompt := "I\x27m driving my " ++ pyStr vehicle_name ++ " at " ++ sSpeed
      ++ " km/h in " ++ pyStr location ++ ". Comment on the scene!"
    ⟨some (send_to_msagent ("CHAT:" ++ prompt) w), .ok (200, okBody)⟩

/-- A pipe world in which the peer accepts the connection and replies
`OK:ack`, as in the spec`s mock-peer scenario. -/
def wAck : PipeWorld :=
  ⟨Except.ok (), Except.ok (), Except.ok (utf8Encode "OK:ack")⟩

/-- The payload of the spec`s crash scenario. -/
def crashDemoPayload : Payload :=
  [("vehicle_name", JValue.jstr "D-Series"), ("speed_before", JValue.jnum 80),
   ("damage_level", JValue.jnum (mkRat 1 2))]

lemma charListStartsWith_iff (a b : List Char) :
    charListStartsWith a b = true ↔ a <+: b := by
  induction a generalizing b with
  | nil => simp [charListStartsWith]
  | cons x xs ih =>
    cases b with
    | nil => simp [charListStartsWith]
    | cons y ys => simp [charListStartsWith, ih, List.cons_prefix_cons]

lemma charListHasSub_iff (a b : List Char) :
    charListHasSub a b = true ↔ a <:+: b := by
  induction b with
  | nil =>
    simp only [charListHasSub, charListStartsWith_iff]
    constructor
    · rintro ⟨t, ht⟩
      rcases List.append_eq_nil.mp ht with ⟨rfl, rfl⟩
      exact ⟨[], [], rfl⟩
    · rintro ⟨s, t, h⟩
      rcases List.append_eq_nil.mp h with ⟨h1, h2⟩
      rcases List.append_eq_nil.mp h1 with ⟨rfl, rfl⟩
      exact List.prefix_rfl
  | cons y ys ih =>
    simp only [charListHasSub, Bool.or_eq_true, charListStartsWith_iff, ih,
      List.infix_cons_iff]

lemma pyFormatFixed_ok_of_numeric (p : Nat) (v : JValue)
    (h : isNumericJ v = true) : ∃ s, pyFormatFixed p v = Except.ok s := by
  cases v <;> simp [isNumericJ] at h <;> exact ⟨_, rfl⟩

lemma pyFormatFixed_error_of_nonnumeric (p : Nat) (v : JValue)
    (h : isNumericJ v = false) : ∃ e, pyFormatFixed p v = Except.error e := by
  cases v <;> simp [isNumericJ] at h <;> exact ⟨_, rfl⟩

/-- C1: for every payload supplying `vehicle_name`, `speed_before` and
`damage_level`, the crash handler hands `send_to_msagent` the command
built from the exact template `CHAT:I just crashed my {vehicle_name} at
{speed_before:.0f} km/h! The damage is pretty bad ({damage_level:.1f}).
React dramatically!` and answers HTTP 200 with body `{"status":"ok"}`. -/
theorem crash_command_template (data : Payload) (w : PipeWorld) (v : JValue) (q r : ℚ)
    (hv : data.lookup "vehicle_name" = some v)
    (hs : data.lookup "speed_before" = some (JValue.jnum q))
    (hd : data.lookup "damage_level" = some (JValue.jnum r)) :
    (comment_on_crash data w).ipc = some (send_to_msagent
      ("CHAT:" ++ ("I just crashed my " ++ pyStr v ++ " at " ++ fmtFixed 0 q
        ++ " km/h! The damage is pretty bad (" ++ fmtFixed 1 r
        ++ "). React dramatically!")) w)
    ∧ (comment_on_crash data w).http = Except.ok (200, okBody) := by
  simp [comment_on_crash, pget, hv, hs, hd, pyFormatFixed]

/-- Witness for C1: the spec scenario `{"vehicle_name":"D-Series",
"speed_before":80,"damage_level":0.5}` against a peer replying `OK:ack`
sends exactly the expected command and answers 200 `{"status":"ok"}`. -/
theorem crash_command_template_witness :
    (comment_on_crash crashDemoPayload wAck).ipc = some (send_to_msagent
      "CHAT:I just crashed my D-Series at 80 km/h! The damage is pretty bad (0.5). React dramatically!"
      wAck)
    ∧ (comment_on_crash crashDemoPayload wAck).http = Except.ok (200, okBody) := by
  have h := crash_command_template crashDemoPayload wAck (JValue.jstr "D-Series")
    80 (mkRat 1 2) rfl rfl rfl
  refine ⟨?_, h.2⟩
  rw [h.1]
  congr 2

/-- C2: `send_to_msagent` never propagates an exception: a
`pywintypes.error` on the connect (and likewise on the write or read,
which the same handler catches) yields exactly the could-not-connect
sentinel, a decode failure yields `"ERROR:" ++ message`, and at most one
write and one read are ever attempted — no retry. -/
theorem send_failure_taxonomy (command : String) (w : PipeWorld) :
    ((∃ e, w.connect = Except.error e) →
      (send_to_msagent command w).result = couldNotConnectMsg) ∧
    ((∃ e, w.write = Except.error e) →
      ∃ m, (send_to_msagent command w).result = "ERROR:" ++ m) ∧
    ((∃ e, w.read = Except.error e) →
      ∃ m, (send_to_msagent command w).result = "ERROR:" ++ m) ∧
    (∀ pending, w.read = Except.ok pending →
      utf8DecodeChars (pending.take 1024) = none →
      ∃ m, (send_to_msagent command w).result = "ERROR:" ++ m) ∧
    (send_to_msagent command w).framesWritten.length ≤ 1 ∧
    (send_to_msagent command w).readsRequested.length ≤ 1 := by
  obtain ⟨c, wr, r⟩ := w
  refine ⟨?_, ?_, ?_, ?_, ?_, ?_⟩
  · rintro ⟨e, he⟩
    subst he
    rfl
  · rintro ⟨e, he⟩
    subst he
    exact ⟨"Could not connect to MSAgent-AI. Is it running?",
      by cases c <;> rfl⟩
  · rintro ⟨e, he⟩
    subst he
    exact ⟨"Could not connect to MSAgent-AI. Is it running?",
      by cases c <;> cases wr <;> rfl⟩
  · rintro pending hp hdec
    cases c with
    | error e =>
      exact ⟨"Could not connect to MSAgent-AI. Is it running?", rfl⟩
    | ok u =>
      cases wr with
      | error e =>
        exact ⟨"Could not connect to MSAgent-AI. Is it running?", rfl⟩
      | ok u2 =>
        cases hp
        exact ⟨decodeErrMsg, by simp [send_to_msagent, hdec]⟩
  · cases c <;> cases wr <;> cases r
    all_goals simp only [send_to_msagent]
    all_goals try split
    all_goals simp
  · cases c <;> cases wr <;> cases r
    all_goals simp only [send_to_msagent]
    all_goals try split
    all_goals simp

/-- Witness for C2: with no peer listening the connect fails and the call
returns exactly the sentinel. -/
theorem send_failure_taxonomy_witness :
    (send_to_msagent "PING"
      ⟨Except.error "no pipe", Except.ok (), Except.ok []⟩).result
    = couldNotConnectMsg :=
  (send_failure_taxonomy "PING"
    ⟨Except.error "no pipe", Except.ok (), Except.ok []⟩).1 ⟨"no pipe", rfl⟩

/-- C3: for every outcome of `send("PING")` the health route answers
HTTP 200 with `status = "ok"`, a connectivity flag that is true exactly
when the raw IPC response contains the substring `PONG`, and the raw
response itself; peer unreachability never surfaces as a transport-level
failure. -/
theorem health_route_spec (w : PipeWorld) :
    (health w).http = Except.ok (200, [("status", JValue.jstr "ok"),
      ("msagent_connected",
        JValue.jbool (pyContains (send_to_msagent "PING" w).result "PONG")),
      ("msagent_response", JValue.jstr (send_to_msagent "PING" w).result)]) ∧
    (pyContains (send_to_msagent "PING" w).result "PONG" = true ↔
      "PONG".data <:+: (send_to_msagent "PING" w).result.data) :=
  ⟨rfl, charListHasSub_iff _ _⟩

/-- Counterexample to C4: the payload `{"speed": "fast"}` decodes as JSON
successfully, yet the surroundings handler raises inside the f-string
format spec `:.0f`, so the route neither sends a command nor returns
`{"status":"ok"}`. -/
theorem surroundings_nonnumeric_cex :
    (comment_on_surroundings [("speed", JValue.jstr "fast")] wAck).http
      = Except.error "Unknown format code f for object of type str" ∧
    (comment_on_surroundings [("speed", JValue.jstr "fast")] wAck).http
      ≠ Except.ok (200, okBody) ∧
    (comment_on_surroundings [("speed", JValue.jstr "fast")] wAck).ipc = none := by
  refine ⟨rfl, fun h => ?_, rfl⟩
  exact Except.noConfusion ((rfl :
    (comment_on_surroundings [("speed", JValue.jstr "fast")] wAck).http
      = Except.error "Unknown format code f for object of type str").symm.trans h)

/-- C4 (amended): for every decoded JSON payload whose numerically
formatted fields (`speed_before`, `damage_level`, `speed`), when present,
hold numbers or booleans, all five event handlers return exactly
`{"status":"ok"}`, for every IPC outcome; the IPC response text never
reaches the HTTP body. -/
theorem event_routes_always_ok (data : Payload) (w : PipeWorld)
    (hs : isNumericJ (pget data "speed_before" (JValue.jnum 0)) = true)
    (hd : isNumericJ (pget data "damage_level" (JValue.jnum 0)) = true)
    (hv : isNumericJ (pget data "speed" (JValue.jnum 0)) = true) :
    (comment_on_vehicle data w).http = Except.ok (200, okBody) ∧
    (comment_on_crash data w).http = Except.ok (200, okBody) ∧
    (comment_on_dent data w).http = Except.ok (200, okBody) ∧
    (comment_on_scratch data w).http = Except.ok (200, okBody) ∧
    (comment_on_surroundings data w).http = Except.ok (200, okBody) := by
  obtain ⟨s1, h1⟩ := pyFormatFixed_ok_of_numeric 0 _ hs
  obtain ⟨s2, h2⟩ := pyFormatFixed_ok_of_numeric 1 _ hd
  obtain ⟨s3, h3⟩ := pyFormatFixed_ok_of_numeric 0 _ hv
  refine ⟨rfl, ?_, rfl, rfl, ?_⟩
  · simp [comment_on_crash, h1, h2]
  · simp [comment_on_surroundings, h3]

/-- Witness for the amended C4 at the crash scenario payload. -/
theorem event_routes_always_ok_witness :
    (comment_on_crash crashDemoPayload wAck).http = Except.ok (200, okBody) ∧
    (comment_on_surroundings crashDemoPayload wAck).http = Except.ok (200, okBody) :=
  ⟨(event_routes_always_ok crashDemoPayload wAck rfl rfl rfl).2.1,
   (event_routes_always_ok crashDemoPayload wAck rfl rfl rfl).2.2.2.2⟩

/-- Counterexample to C5: with the present field `speed_before` bound to
the string `"fast"`, crash-command formatting raises — no command is
produced, refuting `never raises ... for any shape or typing of the
present fields`. -/
theorem crash_formatter_raises_cex :
    (comment_on_crash [("speed_before", JValue.jstr "fast")] wAck).ipc = none ∧
    (comment_on_crash [("speed_before", JValue.jstr "fast")] wAck).http
      = Except.error "Unknown format code f for object of type str" :=
  ⟨rfl, rfl⟩

/-- C5 (amended): missing fields are substituted with the documented
defaults (`"Unknown"` for names, `0` for numerics) and never cause a
failure; the vehicle, dent and scratch templates never raise for ANY
payload; the crash and surroundings templates produce a command whenever
their numerically formatted fields (`speed_before`, `damage_level`,
`speed`), if present, hold numbers or booleans, and raise — producing no
command and an error response — whenever such a field is present with a
non-numeric value. -/
theorem formatter_defaults_amended (data : Payload) (w : PipeWorld) :
    (comment_on_vehicle data w).ipc.isSome = true ∧
    (comment_on_dent data w).ipc.isSome = true ∧
    (comment_on_scratch data w).ipc.isSome = true ∧
    (isNumericJ (pget data "speed_before" (JValue.jnum 0)) = true →
      isNumericJ (pget data "damage_level" (JValue.jnum 0)) = true →
      (comment_on_crash data w).ipc.isSome = true) ∧
    (isNumericJ (pget data "speed" (JValue.jnum 0)) = true →
      (comment_on_surroundings data w).ipc.isSome = true) ∧
    (isNumericJ (pget data "speed_before" (JValue.jnum 0)) = false →
      (comment_on_crash data w).ipc = none ∧
      ∃ e, (comment_on_crash data w).http = Except.error e) ∧
    (isNumericJ (pget data "speed_before" (JValue.jnum 0)) = true →
      isNumericJ (pget data "damage_level" (JValue.jnum 0)) = false →
      (comment_on_crash data w).ipc = none ∧
      ∃ e, (comment_on_crash data w).http = Except.error e) ∧
    (isNumericJ (pget data "speed" (JValue.jnum 0)) = false →
      (comment_on_surroundings data w).ipc = none ∧
      ∃ e, (comment_on_surroundings data w).http = Except.error e) ∧
    (comment_on_crash [] w).ipc = some (send_to_msagent
      "CHAT:I just crashed my Unknown at 0 km/h! The damage is pretty bad (0.0). React dramatically!"
      w) ∧
    (comment_on_vehicle [] w).ipc = some (send_to_msagent
      "CHAT:I just spawned a Unknown  in BeamNG! Make an excited comment about this vehicle."
      w) ∧
    (comment_on_dent [] w).ipc = some (send_to_msagent
      "CHAT:My Unknown just got a big dent! Make a comment about the damage."
      w) ∧
    (comment_on_scratch [] w).ipc = some (send_to_msagent
      "CHAT:Just scratched the paint on my Unknown. Make a light comment."
      w) ∧
    (comment_on_surroundings [] w).ipc = some (send_to_msagent
      "CHAT:I\x27m driving my Unknown at 0 km/h in Unknown. Comment on the scene!"
      w) := by
  refine ⟨rfl, rfl, rfl, ?_, ?_, ?_, ?_, ?_, rfl, rfl, rfl, rfl, rfl⟩
  · intro hs hd
    obtain ⟨s1, h1⟩ := pyFormatFixed_ok_of_numeric 0 _ hs
    obtain ⟨s2, h2⟩ := pyFormatFixed_ok_of_numeric 1 _ hd
    simp [comment_on_crash, h1, h2]
  · intro hv
    obtain ⟨s3, h3⟩ := pyFormatFixed_ok_of_numeric 0 _ hv
    simp [comment_on_surroundings, h3]
  · intro hs
    obtain ⟨e1, h1⟩ := pyFormatFixed_error_of_nonnumeric 0 _ hs
    exact ⟨by simp [comment_on_crash, h1], ⟨e1, by simp [comment_on_crash, h1]⟩⟩
  · intro hs hd
    obtain ⟨s1, h1⟩ := pyFormatFixed_ok_of_numeric 0 _ hs
    obtain ⟨e2, h2⟩ := pyFormatFixed_error_of_nonnumeric 1 _ hd
    exact ⟨by simp [comment_on_crash, h1, h2], ⟨e2, by simp [comment_on_crash, h1, h2]⟩⟩
  · intro hv
    obtain ⟨e3, h3⟩ := pyFormatFixed_error_of_nonnumeric 0 _ hv
    exact ⟨by simp [comment_on_surroundings, h3], ⟨e3, by simp [comment_on_surroundings, h3]⟩⟩

/-- Witness for the amended C5: the dent template succeeds on a payload
whose `speed` field is a string (no numeric hypothesis needed), the crash
template succeeds on the scenario payload, and the surroundings template
raises on that same non-numeric `speed`. -/
theorem formatter_defaults_amended_witness :
    (comment_on_dent [("speed", JValue.jstr "fast")] wAck).ipc.isSome = true ∧
    (comment_on_crash crashDemoPayload wAck).ipc.isSome = true ∧
    (comment_on_surroundings [("speed", JValue.jstr "fast")] wAck).ipc = none :=
  ⟨(formatter_defaults_amended [("speed", JValue.jstr "fast")] wAck).2.1,
   (formatter_defaults_amended crashDemoPayload wAck).2.2.2.1 rfl rfl,
   ((formatter_defaults_amended [("speed", JValue.jstr "fast")] wAck).2.2.2.2.2.2.2.1 rfl).1⟩

/-- C6: on a round trip whose connect and write succeed, the single frame
written is exactly the UTF-8 bytes of `command + "\n"` (no length
prefix), exactly one read with byte cap 1024 is issued, and the bytes it
returns are the peer`s pending reply truncated to 1024. -/
theorem send_framing (command : String) (pending : List Nat) (w : PipeWorld)
    (hc : w.connect = Except.ok ()) (hw : w.write = Except.ok ())
    (hr : w.read = Except.ok pending) :
    (send_to_msagent command w).framesWritten = [utf8Encode (command ++ "\n")] ∧
    (send_to_msagent command w).readsRequested = [1024] ∧
    (send_to_msagent command w).bytesRead = [pending.take 1024] ∧
    (pending.take 1024).length ≤ 1024 := by
  refine ⟨?_, ?_, ?_, List.length_take_le _ _⟩ <;>
    · simp only [send_to_msagent, hc, hw, hr]
      split <;> rfl

/-- A world whose peer has 2000 pending bytes, exceeding the read cap. -/
def wLong : PipeWorld :=
  ⟨Except.ok (), Except.ok (), Except.ok (List.replicate 2000 65)⟩

/-- Witness for C6: a 2000-byte pending reply is truncated to the
1024-byte cap, and the frame written for `PING` is its newline-terminated
UTF-8 encoding. -/
theorem send_framing_witness :
    (send_to_msagent "PING" wLong).framesWritten = [utf8Encode ("PING" ++ "\n")] ∧
    (send_to_msagent "PING" wLong).readsRequested = [1024] ∧
    (send_to_msagent "PING" wLong).bytesRead = [List.replicate 1024 65] := by
  have h := send_framing "PING" (List.replicate 2000 65) wLong rfl rfl rfl
  refine ⟨h.1, h.2.1, ?_⟩
  rw [h.2.2.1, List.take_replicate]
  norm_num

/-- A world in which the connect and write succeed but the read raises a
`pywintypes.error`. -/
def wReadFail : PipeWorld :=
  ⟨Except.ok (), Except.ok (), Except.error "broken pipe"⟩

/-- Counterexample to C8: when the read fails after a successful connect,
the exception jumps to the handler and the `CloseHandle` call is never
executed — the handle was opened but is not closed before `send`
returns. -/
theorem handle_leak_cex :
    (send_to_msagent "PING" wReadFail).opened = true ∧
    (send_to_msagent "PING" wReadFail).closed = false :=
  ⟨rfl, rfl⟩

/-- C8 (amended): `CloseHandle` is executed exactly on the fully
successful round trip; after a write, read or decode failure the function
returns without closing the handle it opened. -/
theorem close_iff_success (command : String) (w : PipeWorld) :
    (send_to_msagent command w).closed = true ↔
      (w.connect = Except.ok () ∧ w.write = Except.ok () ∧
        ∃ pending, w.read = Except.ok pending ∧
          (utf8DecodeChars (pending.take 1024)).isSome = true) := by
  obtain ⟨c, wr, r⟩ := w
  cases c with
  | error e => simp [send_to_msagent]
  | ok u =>
    cases u
    cases wr with
    | error e => simp [send_to_msagent]
    | ok u2 =>
      cases u2
      cases r with
      | error e => simp [send_to_msagent]
      | ok pending =>
        simp only [send_to_msagent]
        cases hdec : utf8DecodeChars (pending.take 1024) with
        | none => simp [hdec]
        | some cs => simp [hdec]

lemma dropWhile_head_not (p : Char → Bool) (l : List Char) (c : Char)
    (h : (l.dropWhile p).head? = some c) : p c = false := by
  induction l with
  | nil => simp [List.dropWhile] at h
  | cons a as ih =>
    by_cases hpa : p a = true
    · simp [List.dropWhile, hpa] at h
      exact ih h
    · simp [List.dropWhile, hpa] at h
      cases h
      simpa using hpa

lemma sub_of_pre_suf {α : Type} {a b c : List α} (h1 : a <+: b) (h2 : b <:+ c) :
    a <:+: c := by
  obtain ⟨t, rfl⟩ := h1
  obtain ⟨s, rfl⟩ := h2
  exact ⟨s, t, by simp⟩

lemma head_of_pre {α : Type} {x y : List α} {c : α} (h : x <+: y)
    (hh : x.head? = some c) : y.head? = some c := by
  obtain ⟨t, rfl⟩ := h
  cases x with
  | nil => simp at hh
  | cons a as => simpa using hh

lemma pyStrip_sub (s : String) : (pyStrip s).data <:+: s.data :=
  sub_of_pre_suf ( List.rdropWhile_prefix _ _) (List.dropWhile_suffix _)

lemma pyStrip_head (s : String) (c : Char)
    (h : (pyStrip s).data.head? = some c) : pyIsSpace c = false := by
  have h2 : (List.dropWhile pyIsSpace s.data).head? = some c :=
    head_of_pre ( List.rdropWhile_prefix _ _) h
  exact dropWhile_head_not _ _ _ h2

lemma pyStrip_last (s : String) (c : Char)
    (h : (pyStrip s).data.getLast? = some c) : pyIsSpace c = false := by
  have e : (pyStrip s).data.reverse
      = List.dropWhile pyIsSpace ((s.data.dropWhile pyIsSpace).reverse) := by
    simp [pyStrip, List.rdropWhile]
  apply dropWhile_head_not pyIsSpace ((s.data.dropWhile pyIsSpace).reverse) c
  rw [← e, List.head?_reverse]
  exact h

/-- A world whose peer replies ` PONG\n`, with one byte of leading
whitespace. -/
def wLeadingSpace : PipeWorld :=
  ⟨Except.ok (), Except.ok (), Except.ok (utf8Encode " PONG\n")⟩

/-- Counterexample to C9: on the reply ` PONG\n` the code returns
`"PONG"`, not the claimed `" PONG"` — `str.strip()` removes the LEADING
whitespace too, so it is not preserved. -/
theorem strip_leading_cex :
    (send_to_msagent "PING" wLeadingSpace).result = "PONG" ∧
    (send_to_msagent "PING" wLeadingSpace).result ≠ " PONG" := by
  constructor
  · decide
  · decide

/-- C9 (amended): on a successful round trip `send` returns the UTF-8
decoding of the truncated reply with BOTH leading and trailing whitespace
removed: the result is a contiguous substring of the decoded reply whose
first and last characters, when they exist, are not whitespace. -/
theorem send_decode_strip (command : String) (w : PipeWorld)
    (pending : List Nat) (cs : List Char)
    (hc : w.connect = Except.ok ()) (hw : w.write = Except.ok ())
    (hr : w.read = Except.ok pending)
    (hdec : utf8DecodeChars (pending.take 1024) = some cs) :
    (send_to_msagent command w).result = pyStrip (String.mk cs) ∧
    (send_to_msagent command w).result.data <:+: cs ∧
    (∀ c, (send_to_msagent command w).result.data.head? = some c →
      pyIsSpace c = false) ∧
    (∀ c, (send_to_msagent command w).result.data.getLast? = some c →
      pyIsSpace c = false) := by
  have e : (send_to_msagent command w).result = pyStrip (String.mk cs) := by
    simp [send_to_msagent, hc, hw, hr, hdec]
  refine ⟨e, ?_, ?_, ?_⟩
  · rw [e]
    exact pyStrip_sub (String.mk cs)
  · intro c hcc
    rw [e] at hcc
    exact pyStrip_head _ _ hcc
  · intro c hcc
    rw [e] at hcc
    exact pyStrip_last _ _ hcc

/-- A world whose peer replies ` OK \n`, padded on both sides. -/
def wPadded : PipeWorld :=
  ⟨Except.ok (), Except.ok (), Except.ok (utf8Encode " OK \n")⟩

/-- Witness for the amended C9: the padded reply ` OK \n` comes back as
`OK`. -/
theorem send_decode_strip_witness :
    (send_to_msagent "PING" wPadded).result = "OK" := by
  have h := (send_decode_strip "PING" wPadded (utf8Encode " OK \n")
    (" OK \n".data) rfl rfl rfl (by decide)).1
  rw [h]
  decide

/-- C10: the dent and scratch routes depend only on the `vehicle_name`
field: two payloads agreeing on it produce the identical IPC round trip
(same command, same trace) and the identical HTTP response;
`damage_amount` and every other field have no influence. -/
theorem dent_scratch_vehicle_name_only (d1 d2 : Payload) (w : PipeWorld)
    (h : d1.lookup "vehicle_name" = d2.lookup "vehicle_name") :
    comment_on_dent d1 w = comment_on_dent d2 w ∧
    comment_on_scratch d1 w = comment_on_scratch d2 w := by
  have hp : pget d1 "vehicle_name" (JValue.jstr "Unknown")
      = pget d2 "vehicle_name" (JValue.jstr "Unknown") := by
    unfold pget
    rw [h]
  constructor <;> simp [comment_on_dent, comment_on_scratch, hp]

/-- First dent payload of the C10 witness. -/
def dentPayloadA : Payload :=
  [("vehicle_name", JValue.jstr "Pessima"), ("damage_amount", JValue.jnum (mkRat 1 5))]

/-- Second dent payload of the C10 witness: same vehicle, different
damage fields. -/
def dentPayloadB : Payload :=
  [("vehicle_name", JValue.jstr "Pessima"), ("damage_amount", JValue.jnum 99),
   ("total_damage", JValue.jnum 1)]

/-- Witness for C10: two dent payloads differing only in damage fields
produce identical outcomes. -/
theorem dent_scratch_vehicle_name_only_witness :
    comment_on_dent dentPayloadA wAck = comment_on_dent dentPayloadB wAck :=
  (dent_scratch_vehicle_name_only dentPayloadA dentPayloadB wAck rfl).1

end Bridge
